import Mathlib

/-!
Shallow embedding of the telebot core (`types.go`): the Recipient
destination-token resolution for `User` and `Chat`, the `Update` envelope,
the `Callback` / `CallbackResponse` shapes, and the JSON wire encoding of
the entities, together with proofs of the specified properties.
-/

/-- Model of Go's digit-extraction loop in `strconv` (`formatBits`, base 10):
repeatedly divide by 10, prepending the character `'0' + digit`. -/
def formatDigits (n : Nat) (acc : List Char) : List Char :=
  if _h : n < 10 then Char.ofNat (48 + n) :: acc
  else formatDigits (n / 10) (Char.ofNat (48 + n % 10) :: acc)
termination_by n
decreasing_by exact Nat.div_lt_self (by omega) (by omega)

/-- Model of Go `strconv.FormatUint(u, 10)`: decimal rendering of a
non-negative integer. -/
def strconv.FormatUint (n : Nat) : String :=
  (formatDigits n []).asString

/-- Model of Go `strconv.FormatInt(i, 10)`: a leading `"-"` for negative
values, then the digits of the absolute value. -/
def strconv.FormatInt (i : Int) : String :=
  if i < 0 then "-" ++ strconv.FormatUint (-i).toNat
  else strconv.FormatUint i.toNat

/-- Model of Go `strconv.Itoa(i)`, which is `FormatInt(int64(i), 10)`. -/
def strconv.Itoa (i : Int) : String :=
  strconv.FormatInt i

/-- Each decimal digit is rendered as `Nat.digitChar` renders it. -/
theorem char_ofNat_eq_digitChar : ∀ d : Nat, d < 10 → Char.ofNat (48 + d) = Nat.digitChar d := by
  decide

/-- With enough fuel, core's `Nat.toDigitsCore` at base 10 agrees with the
embedded Go digit loop. -/
theorem toDigitsCore_eq_formatDigits (fuel : Nat) :
    ∀ (n : Nat) (acc : List Char), n < fuel →
      Nat.toDigitsCore 10 fuel n acc = formatDigits n acc := by
  induction fuel with
  | zero => intro n acc h; omega
  | succ f ih =>
    intro n acc h
    rw [formatDigits]
    by_cases h10 : n < 10
    · have hdiv : n / 10 = 0 := Nat.div_eq_of_lt h10
      have hmod : n % 10 = n := Nat.mod_eq_of_lt h10
      rw [dif_pos h10]
      simp [Nat.toDigitsCore, hdiv, hmod, char_ofNat_eq_digitChar n h10]
    · have hdiv : n / 10 ≠ 0 := by
        have : 10 / 10 ≤ n / 10 := Nat.div_le_div_right (by omega)
        omega
      have hlt : n / 10 < f := by
        have := Nat.div_lt_self (show 0 < n by omega) (show 1 < 10 by omega)
        omega
      rw [dif_neg h10]
      simp only [Nat.toDigitsCore, if_neg hdiv]
      rw [← char_ofNat_eq_digitChar (n % 10) (Nat.mod_lt _ (by omega))]
      exact ih (n / 10) _ hlt

/-- The embedded `strconv.FormatUint` agrees with Lean's decimal `Nat.repr`. -/
theorem formatUint_eq_repr (n : Nat) : strconv.FormatUint n = Nat.repr n := by
  unfold strconv.FormatUint Nat.repr Nat.toDigits
  rw [toDigitsCore_eq_formatDigits (n + 1) n [] (Nat.lt_succ_self n)]

/-- The embedded `strconv.FormatInt` agrees with Lean's decimal `toString`
on integers. -/
theorem formatInt_eq_toString (i : Int) : strconv.FormatInt i = toString i := by
  unfold strconv.FormatInt
  cases i with
  | ofNat m =>
    rw [if_neg (by exact Int.not_lt.mpr (Int.ofNat_nonneg m))]
    exact formatUint_eq_repr m
  | negSucc m =>
    rw [if_pos (Int.negSucc_lt_zero m)]
    have hneg : (-(Int.negSucc m)).toNat = m + 1 := by
      rw [Int.negSucc_eq]; omega
    rw [hneg, formatUint_eq_repr]
    rfl

/-- The embedded `strconv.Itoa` agrees with Lean's decimal `toString`. -/
theorem itoa_eq_toString (i : Int) : strconv.Itoa i = toString i :=
  formatInt_eq_toString i

/-- `User` from `types.go`: a Telegram user or bot. -/
structure User where
  ID : Int
  FirstName : String
  LastName : String
  Username : String
deriving Repr, DecidableEq

/-- `ChatType` tag; a string in Go (`type ChatType string`). -/
abbrev ChatType := String

/-- `Chat` from `types.go`: a Telegram user, bot or group chat. -/
structure Chat where
  ID : Int
  -- named `Type` in the Go source; `Type` is reserved in Lean
  type : ChatType
  Title : String
  FirstName : String
  LastName : String
  Username : String
deriving Repr, DecidableEq

/-- `User.Destination` from `types.go`:
`return strconv.Itoa(u.ID)`. -/
def User.Destination (u : User) : String :=
  strconv.Itoa u.ID

/-- `Chat.Destination` from `types.go`:
`ret := "@" + c.Username; if c.type != "channel" { ret = strconv.FormatInt(c.ID, 10) }; return ret`. -/
def Chat.Destination (c : Chat) : String :=
  let ret := "@" ++ c.Username
  let ret := if c.type ≠ "channel" then strconv.FormatInt c.ID else ret
  ret

/-- `Chat.IsGroupChat` from `types.go`: `return c.type != "private"`. -/
def Chat.IsGroupChat (c : Chat) : Bool :=
  c.type != "private"

/-- Modelled from the spec: the `Message` struct lives in repository code
outside the provided source file; only its presence or absence inside an
`Update` matters to the properties here, so it is modelled as an abstract
record with an identifier. -/
structure Message where
  ID : Int
deriving Repr, DecidableEq

/-- Modelled from the spec: the inline `Query` struct lives in repository
code outside the provided source file; only its presence or absence inside
an `Update` matters here. -/
structure Query where
  ID : String
deriving Repr, DecidableEq

/-- `Callback` from `types.go`: a query from a callback button. Pointer
fields of the Go struct become `Option`. -/
structure Callback where
  ID : String
  Sender : Option User
  Message : Option Message
  MessageID : String
  Data : String
deriving Repr, DecidableEq

/-- `Update` from `types.go`: the inbound event envelope. The three Go
pointer fields become `Option`. -/
structure Update where
  ID : Int
  Payload : Option Message
  Callback : Option Callback
  Query : Option Query
deriving Repr, DecidableEq

/-- `CallbackResponse` from `types.go`: the acknowledgement object for a
callback query. -/
structure CallbackResponse where
  CallbackID : String
  Text : String
  ShowAlert : Bool
  URL : String
deriving Repr, DecidableEq

/-- Modelled from the spec: the CallbackResponse builder of §4.3 lives in
repository code outside the provided source file. Input: a `Callback` (to
source its identifier) plus caller-supplied display text, alert flag and
redirect URL; output: a `CallbackResponse` with `CallbackID` set from the
Callback's identifier and the remaining fields copied from caller input.
The identifier is not among the caller-settable arguments. -/
def buildCallbackResponse (c : Callback) (text : String) (showAlert : Bool)
    (url : String) : CallbackResponse :=
  { CallbackID := c.ID, Text := text, ShowAlert := showAlert, URL := url }

/-- Outcome of dispatching one `Update`. -/
inductive DispatchKind where
  | callback
  | query
  | message
  | nothing
deriving Repr, DecidableEq

/-- Modelled from the spec: the dispatch policy of §4.2 for a consuming
caller (it lives outside the provided source file): check `Callback` first,
then `Query`, then fall back to treating `Payload` as a plain message; an
update with all three fields empty is valid but uninteresting. -/
def dispatch (u : Update) : DispatchKind :=
  match u.Callback with
  | some _ => DispatchKind.callback
  | none =>
    match u.Query with
    | some _ => DispatchKind.query
    | none =>
      match u.Payload with
      | some _ => DispatchKind.message
      | none => DispatchKind.nothing

/-- State-passing embedding of a call to `User.Destination`: the result
paired with the receiver's state after the call. The Go body
(`return strconv.Itoa(u.ID)`) contains no assignment to any field of `u`,
so the outgoing state is the incoming receiver. -/
def User.DestinationCall (u : User) : String × User :=
  (strconv.Itoa u.ID, u)

/-- State-passing embedding of a call to `Chat.Destination`: the Go body
assigns only to the local variable `ret`, never to a field of `c`, so the
outgoing state is the incoming receiver. -/
def Chat.DestinationCall (c : Chat) : String × Chat :=
  let ret := "@" ++ c.Username
  let ret := if c.type ≠ "channel" then strconv.FormatInt c.ID else ret
  (ret, c)

/-- State-passing embedding of a call to `Chat.IsGroupChat`: the Go body
(`return c.Type != "private"`) contains no assignment to any field of `c`. -/
def Chat.IsGroupChatCall (c : Chat) : Bool × Chat :=
  (c.type != "private", c)

/-- `InlineButton` from `types.go`: a button displayed in the message.
`URL`, `Data` and `InlineQuery` carry `omitempty` wire tags. -/
structure InlineButton where
  Text : String
  URL : String
  Data : String
  InlineQuery : String
deriving Repr, DecidableEq

/-- A `float32` value, represented by its 32 raw IEEE-754 bits. Go
transports a finite `float32` through JSON value-faithfully: `Marshal`
prints the shortest decimal that reparses to the same value, so distinct
finite values have distinct canonical wire tokens and the wire model below
carries the finite value itself as its token. Non-finite values (NaN,
infinities) are rejected by `Marshal` with an `UnsupportedValueError`. -/
structure GoFloat32 where
  bits : Nat
deriving Repr, DecidableEq

/-- A `float32` is finite unless its exponent field (bits 23-30) is
all-ones (IEEE-754 single precision: all-ones exponent means Inf or NaN). -/
def GoFloat32.isFinite (f : GoFloat32) : Bool :=
  (f.bits / 2 ^ 23) % 2 ^ 8 != 255

/-- JSON values, the wire format of the remote service. `fnum` is the
canonical wire token of a finite `float32` (see `GoFloat32`). -/
inductive Json where
  | null : Json
  | bool : Bool → Json
  | num : Int → Json
  | fnum : GoFloat32 → Json
  | str : String → Json
  | arr : List Json → Json
  | obj : List (String × Json) → Json

/-- First value bound to a key in a JSON object's field list. -/
def jsonLookup (fields : List (String × Json)) (k : String) : Option Json :=
  match fields with
  | [] => none
  | (k2, v) :: rest => if k2 = k then some v else jsonLookup rest k

/-- Decoding of a string-typed field per Go `encoding/json`: a missing key
leaves the zero value `""`, a JSON null has no effect (also leaving `""`),
and any other present value must be a string. -/
def decodeStrField (fields : List (String × Json)) (k : String) : Option String :=
  match jsonLookup fields k with
  | none => some ""
  | some Json.null => some ""
  | some (Json.str s) => some s
  | some _ => none

/-- Decoding of an integer-typed field per Go `encoding/json`: a missing
key leaves the zero value `0`, a JSON null has no effect, and any other
present value must be a number. -/
def decodeIntField (fields : List (String × Json)) (k : String) : Option Int :=
  match jsonLookup fields k with
  | none => some 0
  | some Json.null => some 0
  | some (Json.num n) => some n
  | some _ => none

/-- Decoding of a bool-typed field per Go `encoding/json`: a missing key
leaves the zero value `false`, a JSON null has no effect. -/
def decodeBoolField (fields : List (String × Json)) (k : String) : Option Bool :=
  match jsonLookup fields k with
  | none => some false
  | some Json.null => some false
  | some (Json.bool b) => some b
  | some _ => none

/-- Decoding of a float32-typed field per Go `encoding/json`: a missing key
leaves the zero value (bits 0), a JSON null has no effect, and a present
canonical float token yields its value. -/
def decodeFloatField (fields : List (String × Json)) (k : String) : Option GoFloat32 :=
  match jsonLookup fields k with
  | none => some (GoFloat32.mk 0)
  | some Json.null => some (GoFloat32.mk 0)
  | some (Json.fnum f) => some f
  | some _ => none

/-- Decoding of a non-pointer struct-typed field per Go `encoding/json`: a
missing key leaves the zero value, a JSON null has no effect, and a present
value is decoded by the struct's decoder. -/
def decodeNestedField (fields : List (String × Json)) (k : String) (zero : α)
    (dec : Json → Option α) : Option α :=
  match jsonLookup fields k with
  | none => some zero
  | some Json.null => some zero
  | some j => dec j

/-- Decoding of a pointer-typed field per Go `encoding/json`: a missing key
leaves the nil pointer, a JSON null sets the pointer to nil, and any other
value is decoded into a fresh pointee. -/
def decodePtrField (fields : List (String × Json)) (k : String)
    (dec : Json → Option α) : Option (Option α) :=
  match jsonLookup fields k with
  | none => some none
  | some Json.null => some none
  | some j => Option.map some (dec j)

/-- Encoding of a pointer per Go `encoding/json`: a nil pointer encodes as
JSON null, a non-nil pointer as its pointee. -/
def encodePtrWith (enc : α → Json) : Option α → Json
  | none => Json.null
  | some x => enc x

/-- Encoding of a slice as a JSON array (the model does not distinguish a
nil slice from an empty one; both are the empty list, and Go decodes the
null emitted for a nil slice back to the nil slice, the zero value). -/
def encodeListWith (enc : α → Json) (xs : List α) : Json :=
  Json.arr (xs.map enc)

/-- Element-wise decoding of a JSON array's payload, failing if any
element fails. -/
def decodeListWith (dec : Json → Option α) : List Json → Option (List α)
  | [] => some []
  | j :: rest =>
    match dec j with
    | none => none
    | some x =>
      match decodeListWith dec rest with
      | none => none
      | some xs => some (x :: xs)

/-- Decoding of a slice-typed field per Go `encoding/json`: a missing key
leaves the zero value (nil slice, the empty list here), a JSON null sets
the slice to nil, and an array is decoded element-wise. -/
def decodeSliceField (fields : List (String × Json)) (k : String)
    (dec : Json → Option α) : Option (List α) :=
  match jsonLookup fields k with
  | none => some []
  | some Json.null => some []
  | some (Json.arr js) => decodeListWith dec js
  | some _ => none

/-- Encoding of `Chat` per its wire tags in `types.go`
(`id`, `type`, `title`, `first_name`, `last_name`, `username`; none
carries `omitempty`). -/
def encodeChat (c : Chat) : Json :=
  Json.obj [("id", Json.num c.ID), ("type", Json.str c.type),
    ("title", Json.str c.Title), ("first_name", Json.str c.FirstName),
    ("last_name", Json.str c.LastName), ("username", Json.str c.Username)]

/-- Decoding of `Chat` from its wire form. -/
def decodeChat (j : Json) : Option Chat :=
  match j with
  | Json.obj fields => do
    let id ← decodeIntField fields "id"
    let ty ← decodeStrField fields "type"
    let title ← decodeStrField fields "title"
    let firstName ← decodeStrField fields "first_name"
    let lastName ← decodeStrField fields "last_name"
    let username ← decodeStrField fields "username"
    pure { ID := id, type := ty, Title := title, FirstName := firstName,
           LastName := lastName, Username := username }
  | _ => none

/-- Encoding of `InlineButton` per its wire tags in `types.go`: `text`
always present; `url`, `callback_data` and `switch_inline_query` omitted
when empty (`omitempty`). -/
def encodeInlineButton (b : InlineButton) : Json :=
  Json.obj (("text", Json.str b.Text) ::
    ((if b.URL = "" then [] else [("url", Json.str b.URL)]) ++
     (if b.Data = "" then [] else [("callback_data", Json.str b.Data)]) ++
     (if b.InlineQuery = "" then []
      else [("switch_inline_query", Json.str b.InlineQuery)])))

/-- Decoding of `InlineButton` from its wire form. -/
def decodeInlineButton (j : Json) : Option InlineButton :=
  match j with
  | Json.obj fields => do
    let text ← decodeStrField fields "text"
    let url ← decodeStrField fields "url"
    let data ← decodeStrField fields "callback_data"
    let iq ← decodeStrField fields "switch_inline_query"
    pure { Text := text, URL := url, Data := data, InlineQuery := iq }
  | _ => none

/-- Modelled from the spec: the generic file descriptor (remote file
identifier plus size metadata) that every media attachment composes; its
struct lives in repository code outside the provided source file. -/
structure File where
  FileID : String
  FileSize : Int
deriving Repr, DecidableEq

/-- `Photo` from `types.go`: a photo with or without caption; embeds the
generic file descriptor, whose wire fields are flattened into the photo's. -/
structure Photo where
  File : File
  Width : Int
  Height : Int
  Caption : String
deriving Repr, DecidableEq

/-- `Audio` from `types.go`: an audio file. -/
structure Audio where
  File : File
  Duration : Int
  Title : String
  Performer : String
  Mime : String
  Caption : String
deriving Repr, DecidableEq

/-- `Voice` from `types.go`: a voice note. -/
structure Voice where
  File : File
  Duration : Int
  Mime : String
  Caption : String
deriving Repr, DecidableEq

/-- `Document` from `types.go`: a general file with a photo preview. -/
structure Document where
  File : File
  Preview : Photo
  FileName : String
  Mime : String
  Caption : String
deriving Repr, DecidableEq

/-- `Sticker` from `types.go`: a WebP image. -/
structure Sticker where
  File : File
  Width : Int
  Height : Int
  Thumbnail : Photo
  Emoji : String
deriving Repr, DecidableEq

/-- `Video` from `types.go`: an MP4 video; embeds `Audio` (which embeds the
file descriptor) and adds visual fields. -/
structure Video where
  Audio : Audio
  Width : Int
  Height : Int
  Caption : String
  Thumbnail : Photo
deriving Repr, DecidableEq

/-- `VideoNote` from `types.go`: a round video message. -/
structure VideoNote where
  File : File
  Duration : Int
  Thumbnail : Photo
deriving Repr, DecidableEq

/-- `Contact` from `types.go`: a contact card. -/
structure Contact where
  UserID : Int
  PhoneNumber : String
  FirstName : String
  LastName : String
deriving Repr, DecidableEq

/-- `Location` from `types.go`: a latitude/longitude pair of `float32`
values (see `GoFloat32`). -/
structure Location where
  Lat : GoFloat32
  Lng : GoFloat32
deriving Repr, DecidableEq

/-- `Venue` from `types.go`: a location with title, address and optional
foursquare identifier. -/
structure Venue where
  Location : Location
  Title : String
  Address : String
  FoursquareID : String
deriving Repr, DecidableEq

/-- `KeyboardButton` from `types.go`: a reply-keyboard button; the two
request flags carry `omitempty` wire tags. -/
structure KeyboardButton where
  Text : String
  Contact : Bool
  Location : Bool
deriving Repr, DecidableEq

/-- `InlineKeyboardMarkup` from `types.go`: ordered rows of inline
buttons; the rows field carries an `omitempty` wire tag. -/
structure InlineKeyboardMarkup where
  InlineKeyboard : List (List InlineButton)
deriving Repr, DecidableEq

/-- `ChatMember` from `types.go`: a user plus a membership status. -/
structure ChatMember where
  User : User
  Status : String
deriving Repr, DecidableEq

/-- `UserProfilePhotos` from `types.go`: a total count plus an ordered
collection of size-variant groups. -/
structure UserProfilePhotos where
  Count : Int
  Photos : List (List Photo)
deriving Repr, DecidableEq

/-- Zero value of `User` (Go zero value semantics). -/
def zeroUser : User := User.mk 0 "" "" ""

/-- Zero value of `Photo`. -/
def zeroPhoto : Photo := Photo.mk (File.mk "" 0) 0 0 ""

/-- Zero value of `Location` (the all-zero bit pattern is finite 0.0). -/
def zeroLocation : Location := Location.mk (GoFloat32.mk 0) (GoFloat32.mk 0)

/-- Wire fields of `User` per its tags in `types.go`
(`id`, `first_name`, `last_name`, `username`; no `omitempty`). -/
def encodeUserFields (u : User) : List (String × Json) :=
  [("id", Json.num u.ID), ("first_name", Json.str u.FirstName),
   ("last_name", Json.str u.LastName), ("username", Json.str u.Username)]

/-- Encoding of `User`. -/
def encodeUser (u : User) : Json := Json.obj (encodeUserFields u)

/-- Decoding of `User` from its wire form. -/
def decodeUser (j : Json) : Option User :=
  match j with
  | Json.obj fields => do
    let id ← decodeIntField fields "id"
    let fn ← decodeStrField fields "first_name"
    let ln ← decodeStrField fields "last_name"
    let un ← decodeStrField fields "username"
    pure (User.mk id fn ln un)
  | _ => none

/-- Modelled from the spec: the wire form of the abstract `Message` record,
reduced to its identifier (the full struct lives outside the provided
source file). -/
def encodeMessageFields (m : Message) : List (String × Json) :=
  [("message_id", Json.num m.ID)]

/-- Encoding of `Message`. -/
def encodeMessage (m : Message) : Json := Json.obj (encodeMessageFields m)

/-- Decoding of `Message` from its wire form. -/
def decodeMessage (j : Json) : Option Message :=
  match j with
  | Json.obj fields => do
    let id ← decodeIntField fields "message_id"
    pure (Message.mk id)
  | _ => none

/-- Modelled from the spec: the wire form of the abstract inline `Query`
record, reduced to its identifier. -/
def encodeQueryFields (q : Query) : List (String × Json) :=
  [("id", Json.str q.ID)]

/-- Encoding of `Query`. -/
def encodeQuery (q : Query) : Json := Json.obj (encodeQueryFields q)

/-- Decoding of `Query` from its wire form. -/
def decodeQuery (j : Json) : Option Query :=
  match j with
  | Json.obj fields => do
    let id ← decodeStrField fields "id"
    pure (Query.mk id)
  | _ => none

/-- Wire fields of the generic file descriptor (flattened into each media
entity's object when embedded). -/
def encodeFileFields (f : File) : List (String × Json) :=
  [("file_id", Json.str f.FileID), ("file_size", Json.num f.FileSize)]

/-- Encoding of `File` as a standalone object. -/
def encodeFile (f : File) : Json := Json.obj (encodeFileFields f)

/-- Decoding of `File` from its wire form. -/
def decodeFile (j : Json) : Option File :=
  match j with
  | Json.obj fields => do
    let fid ← decodeStrField fields "file_id"
    let fsz ← decodeIntField fields "file_size"
    pure (File.mk fid fsz)
  | _ => none

/-- Wire fields of `Photo` per its tags in `types.go`: the embedded file
descriptor flattened, then `width`, `height`, `caption` (`omitempty`). -/
def encodePhotoFields (p : Photo) : List (String × Json) :=
  encodeFileFields p.File ++
    (("width", Json.num p.Width) :: ("height", Json.num p.Height) ::
     (if p.Caption = "" then [] else [("caption", Json.str p.Caption)]))

/-- Encoding of `Photo`. -/
def encodePhoto (p : Photo) : Json := Json.obj (encodePhotoFields p)

/-- Decoding of `Photo` from its wire form. -/
def decodePhoto (j : Json) : Option Photo :=
  match j with
  | Json.obj fields => do
    let fid ← decodeStrField fields "file_id"
    let fsz ← decodeIntField fields "file_size"
    let w ← decodeIntField fields "width"
    let h ← decodeIntField fields "height"
    let cap ← decodeStrField fields "caption"
    pure (Photo.mk (File.mk fid fsz) w h cap)
  | _ => none

/-- Wire fields of `Audio` per its tags in `types.go`. -/
def encodeAudioFields (a : Audio) : List (String × Json) :=
  encodeFileFields a.File ++
    (("duration", Json.num a.Duration) :: ("title", Json.str a.Title) ::
     ("performer", Json.str a.Performer) :: ("mime_type", Json.str a.Mime) ::
     (if a.Caption = "" then [] else [("caption", Json.str a.Caption)]))

/-- Encoding of `Audio`. -/
def encodeAudio (a : Audio) : Json := Json.obj (encodeAudioFields a)

/-- Decoding of `Audio` from its wire form. -/
def decodeAudio (j : Json) : Option Audio :=
  match j with
  | Json.obj fields => do
    let fid ← decodeStrField fields "file_id"
    let fsz ← decodeIntField fields "file_size"
    let dur ← decodeIntField fields "duration"
    let title ← decodeStrField fields "title"
    let perf ← decodeStrField fields "performer"
    let mime ← decodeStrField fields "mime_type"
    let cap ← decodeStrField fields "caption"
    pure (Audio.mk (File.mk fid fsz) dur title perf mime cap)
  | _ => none

/-- Wire fields of `Voice` per its tags in `types.go`. -/
def encodeVoiceFields (v : Voice) : List (String × Json) :=
  encodeFileFields v.File ++
    (("duration", Json.num v.Duration) :: ("mime_type", Json.str v.Mime) ::
     (if v.Caption = "" then [] else [("caption", Json.str v.Caption)]))

/-- Encoding of `Voice`. -/
def encodeVoice (v : Voice) : Json := Json.obj (encodeVoiceFields v)

/-- Decoding of `Voice` from its wire form. -/
def decodeVoice (j : Json) : Option Voice :=
  match j with
  | Json.obj fields => do
    let fid ← decodeStrField fields "file_id"
    let fsz ← decodeIntField fields "file_size"
    let dur ← decodeIntField fields "duration"
    let mime ← decodeStrField fields "mime_type"
    let cap ← decodeStrField fields "caption"
    pure (Voice.mk (File.mk fid fsz) dur mime cap)
  | _ => none

/-- Wire fields of `Document` per its tags in `types.go`
(`thumb`, `file_name`, `mime_type`, `caption` with `omitempty`). -/
def encodeDocumentFields (d : Document) : List (String × Json) :=
  encodeFileFields d.File ++
    (("thumb", encodePhoto d.Preview) :: ("file_name", Json.str d.FileName) ::
     ("mime_type", Json.str d.Mime) ::
     (if d.Caption = "" then [] else [("caption", Json.str d.Caption)]))

/-- Encoding of `Document`. -/
def encodeDocument (d : Document) : Json := Json.obj (encodeDocumentFields d)

/-- Decoding of `Document` from its wire form. -/
def decodeDocument (j : Json) : Option Document :=
  match j with
  | Json.obj fields => do
    let fid ← decodeStrField fields "file_id"
    let fsz ← decodeIntField fields "file_size"
    let thumb ← decodeNestedField fields "thumb" zeroPhoto decodePhoto
    let fn ← decodeStrField fields "file_name"
    let mime ← decodeStrField fields "mime_type"
    let cap ← decodeStrField fields "caption"
    pure (Document.mk (File.mk fid fsz) thumb fn mime cap)
  | _ => none

/-- Wire fields of `Sticker` per its tags in `types.go`. -/
def encodeStickerFields (s : Sticker) : List (String × Json) :=
  encodeFileFields s.File ++
    [("width", Json.num s.Width), ("height", Json.num s.Height),
     ("thumb", encodePhoto s.Thumbnail), ("emoji", Json.str s.Emoji)]

/-- Encoding of `Sticker`. -/
def encodeSticker (s : Sticker) : Json := Json.obj (encodeStickerFields s)

/-- Decoding of `Sticker` from its wire form. -/
def decodeSticker (j : Json) : Option Sticker :=
  match j with
  | Json.obj fields => do
    let fid ← decodeStrField fields "file_id"
    let fsz ← decodeIntField fields "file_size"
    let w ← decodeIntField fields "width"
    let h ← decodeIntField fields "height"
    let thumb ← decodeNestedField fields "thumb" zeroPhoto decodePhoto
    let emoji ← decodeStrField fields "emoji"
    pure (Sticker.mk (File.mk fid fsz) w h thumb emoji)
  | _ => none

/-- Wire fields of `Video` per Go `encoding/json`. The embedded `Audio` is
flattened; both `Video.Caption` (depth 0) and `Audio.Caption` (depth 1)
carry the wire name `caption`, and the documented conflict rule selects
only the least-nested field: the embedded audio caption is never
marshalled, and unmarshalling `caption` populates only `Video.Caption`. -/
def encodeVideoFields (v : Video) : List (String × Json) :=
  encodeFileFields v.Audio.File ++
    (("duration", Json.num v.Audio.Duration) :: ("title", Json.str v.Audio.Title) ::
     ("performer", Json.str v.Audio.Performer) :: ("mime_type", Json.str v.Audio.Mime) ::
     ("width", Json.num v.Width) :: ("height", Json.num v.Height) ::
     ((if v.Caption = "" then [] else [("caption", Json.str v.Caption)]) ++
      [("thumb", encodePhoto v.Thumbnail)]))

/-- Encoding of `Video`. -/
def encodeVideo (v : Video) : Json := Json.obj (encodeVideoFields v)

/-- Decoding of `Video` from its wire form; the embedded audio caption is
left at its zero value (see `encodeVideoFields`). -/
def decodeVideo (j : Json) : Option Video :=
  match j with
  | Json.obj fields => do
    let fid ← decodeStrField fields "file_id"
    let fsz ← decodeIntField fields "file_size"
    let dur ← decodeIntField fields "duration"
    let title ← decodeStrField fields "title"
    let perf ← decodeStrField fields "performer"
    let mime ← decodeStrField fields "mime_type"
    let w ← decodeIntField fields "width"
    let h ← decodeIntField fields "height"
    let cap ← decodeStrField fields "caption"
    let thumb ← decodeNestedField fields "thumb" zeroPhoto decodePhoto
    pure (Video.mk (Audio.mk (File.mk fid fsz) dur title perf mime "") w h cap thumb)
  | _ => none

/-- Wire fields of `VideoNote` per its tags in `types.go`. -/
def encodeVideoNoteFields (vn : VideoNote) : List (String × Json) :=
  encodeFileFields vn.File ++
    [("duration", Json.num vn.Duration), ("thumb", encodePhoto vn.Thumbnail)]

/-- Encoding of `VideoNote`. -/
def encodeVideoNote (vn : VideoNote) : Json := Json.obj (encodeVideoNoteFields vn)

/-- Decoding of `VideoNote` from its wire form. -/
def decodeVideoNote (j : Json) : Option VideoNote :=
  match j with
  | Json.obj fields => do
    let fid ← decodeStrField fields "file_id"
    let fsz ← decodeIntField fields "file_size"
    let dur ← decodeIntField fields "duration"
    let thumb ← decodeNestedField fields "thumb" zeroPhoto decodePhoto
    pure (VideoNote.mk (File.mk fid fsz) dur thumb)
  | _ => none

/-- Wire fields of `Contact` per its tags in `types.go`. -/
def encodeContactFields (c : Contact) : List (String × Json) :=
  [("user_id", Json.num c.UserID), ("phone_number", Json.str c.PhoneNumber),
   ("first_name", Json.str c.FirstName), ("last_name", Json.str c.LastName)]

/-- Encoding of `Contact`. -/
def encodeContact (c : Contact) : Json := Json.obj (encodeContactFields c)

/-- Decoding of `Contact` from its wire form. -/
def decodeContact (j : Json) : Option Contact :=
  match j with
  | Json.obj fields => do
    let uid ← decodeIntField fields "user_id"
    let ph ← decodeStrField fields "phone_number"
    let fn ← decodeStrField fields "first_name"
    let ln ← decodeStrField fields "last_name"
    pure (Contact.mk uid ph fn ln)
  | _ => none

/-- Wire fields of `Location` per its tags in `types.go`. -/
def encodeLocationFields (l : Location) : List (String × Json) :=
  [("latitude", Json.fnum l.Lat), ("longitude", Json.fnum l.Lng)]

/-- Encoding of `Location`: Go `Marshal` rejects non-finite float values
with an `UnsupportedValueError`, modelled as `none`. -/
def encodeLocation (l : Location) : Option Json :=
  if l.Lat.isFinite && l.Lng.isFinite then some (Json.obj (encodeLocationFields l))
  else none

/-- Decoding of `Location` from its wire form. -/
def decodeLocation (j : Json) : Option Location :=
  match j with
  | Json.obj fields => do
    let lat ← decodeFloatField fields "latitude"
    let lng ← decodeFloatField fields "longitude"
    pure (Location.mk lat lng)
  | _ => none

/-- Encoding of `Venue` per its tags in `types.go` (`location`, `title`,
`address`, `foursquare_id` with `omitempty`); fails exactly when the nested
location does. -/
def encodeVenue (v : Venue) : Option Json :=
  match encodeLocation v.Location with
  | none => none
  | some lj =>
    some (Json.obj (("location", lj) :: ("title", Json.str v.Title) ::
      ("address", Json.str v.Address) ::
      (if v.FoursquareID = "" then []
       else [("foursquare_id", Json.str v.FoursquareID)])))

/-- Decoding of `Venue` from its wire form. -/
def decodeVenue (j : Json) : Option Venue :=
  match j with
  | Json.obj fields => do
    let loc ← decodeNestedField fields "location" zeroLocation decodeLocation
    let title ← decodeStrField fields "title"
    let addr ← decodeStrField fields "address"
    let fsq ← decodeStrField fields "foursquare_id"
    pure (Venue.mk loc title addr fsq)
  | _ => none

/-- Wire fields of `KeyboardButton` per its tags in `types.go` (`text`,
`request_contact` and `request_location` with `omitempty`: a false flag is
omitted). -/
def encodeKeyboardButtonFields (kb : KeyboardButton) : List (String × Json) :=
  ("text", Json.str kb.Text) ::
    ((if kb.Contact then [("request_contact", Json.bool kb.Contact)] else []) ++
     (if kb.Location then [("request_location", Json.bool kb.Location)] else []))

/-- Encoding of `KeyboardButton`. -/
def encodeKeyboardButton (kb : KeyboardButton) : Json :=
  Json.obj (encodeKeyboardButtonFields kb)

/-- Decoding of `KeyboardButton` from its wire form. -/
def decodeKeyboardButton (j : Json) : Option KeyboardButton :=
  match j with
  | Json.obj fields => do
    let text ← decodeStrField fields "text"
    let contact ← decodeBoolField fields "request_contact"
    let location ← decodeBoolField fields "request_location"
    pure (KeyboardButton.mk text contact location)
  | _ => none

/-- Decoding of one row of inline buttons (a JSON array; null decodes to
the nil slice). -/
def decodeButtonRow (j : Json) : Option (List InlineButton) :=
  match j with
  | Json.null => some []
  | Json.arr js => decodeListWith decodeInlineButton js
  | _ => none

/-- Wire fields of `InlineKeyboardMarkup` per its tag in `types.go`
(`inline_keyboard` with `omitempty`: an empty rows slice is omitted). -/
def encodeInlineKeyboardMarkupFields (km : InlineKeyboardMarkup) : List (String × Json) :=
  if km.InlineKeyboard.isEmpty then []
  else [("inline_keyboard",
    Json.arr (km.InlineKeyboard.map (fun row => Json.arr (row.map encodeInlineButton))))]

/-- Encoding of `InlineKeyboardMarkup`. -/
def encodeInlineKeyboardMarkup (km : InlineKeyboardMarkup) : Json :=
  Json.obj (encodeInlineKeyboardMarkupFields km)

/-- Decoding of `InlineKeyboardMarkup` from its wire form. -/
def decodeInlineKeyboardMarkup (j : Json) : Option InlineKeyboardMarkup :=
  match j with
  | Json.obj fields => do
    let rows ← decodeSliceField fields "inline_keyboard" decodeButtonRow
    pure (InlineKeyboardMarkup.mk rows)
  | _ => none

/-- Wire fields of `Callback` per its tags in `types.go` (`id`, `from`,
`message`, `inline_message_id`, `data`; pointer fields encode nil as
null). -/
def encodeCallbackFields (cb : Callback) : List (String × Json) :=
  [("id", Json.str cb.ID), ("from", encodePtrWith encodeUser cb.Sender),
   ("message", encodePtrWith encodeMessage cb.Message),
   ("inline_message_id", Json.str cb.MessageID), ("data", Json.str cb.Data)]

/-- Encoding of `Callback`. -/
def encodeCallback (cb : Callback) : Json := Json.obj (encodeCallbackFields cb)

/-- Decoding of `Callback` from its wire form. -/
def decodeCallback (j : Json) : Option Callback :=
  match j with
  | Json.obj fields => do
    let id ← decodeStrField fields "id"
    let sender ← decodePtrField fields "from" decodeUser
    let msg ← decodePtrField fields "message" decodeMessage
    let mid ← decodeStrField fields "inline_message_id"
    let data ← decodeStrField fields "data"
    pure (Callback.mk id sender msg mid data)
  | _ => none

/-- Wire fields of `CallbackResponse` per its tags in `types.go`
(`callback_query_id`; `text`, `show_alert`, `url` with `omitempty`). -/
def encodeCallbackResponseFields (cr : CallbackResponse) : List (String × Json) :=
  ("callback_query_id", Json.str cr.CallbackID) ::
    ((if cr.Text = "" then [] else [("text", Json.str cr.Text)]) ++
     (if cr.ShowAlert then [("show_alert", Json.bool cr.ShowAlert)] else []) ++
     (if cr.URL = "" then [] else [("url", Json.str cr.URL)]))

/-- Encoding of `CallbackResponse`. -/
def encodeCallbackResponse (cr : CallbackResponse) : Json :=
  Json.obj (encodeCallbackResponseFields cr)

/-- Decoding of `CallbackResponse` from its wire form. -/
def decodeCallbackResponse (j : Json) : Option CallbackResponse :=
  match j with
  | Json.obj fields => do
    let cid ← decodeStrField fields "callback_query_id"
    let text ← decodeStrField fields "text"
    let alert ← decodeBoolField fields "show_alert"
    let url ← decodeStrField fields "url"
    pure (CallbackResponse.mk cid text alert url)
  | _ => none

/-- Wire fields of `ChatMember` per its tags in `types.go`. -/
def encodeChatMemberFields (cm : ChatMember) : List (String × Json) :=
  [("user", encodeUser cm.User), ("status", Json.str cm.Status)]

/-- Encoding of `ChatMember`. -/
def encodeChatMember (cm : ChatMember) : Json := Json.obj (encodeChatMemberFields cm)

/-- Decoding of `ChatMember` from its wire form. -/
def decodeChatMember (j : Json) : Option ChatMember :=
  match j with
  | Json.obj fields => do
    let user ← decodeNestedField fields "user" zeroUser decodeUser
    let status ← decodeStrField fields "status"
    pure (ChatMember.mk user status)
  | _ => none

/-- Decoding of one size-variant group of photos. -/
def decodePhotoRow (j : Json) : Option (List Photo) :=
  match j with
  | Json.null => some []
  | Json.arr js => decodeListWith decodePhoto js
  | _ => none

/-- Wire fields of `UserProfilePhotos` per its tags in `types.go`
(`total_count`, `photos`; no `omitempty`). -/
def encodeUserProfilePhotosFields (up : UserProfilePhotos) : List (String × Json) :=
  [("total_count", Json.num up.Count),
   ("photos", Json.arr (up.Photos.map (fun row => Json.arr (row.map encodePhoto))))]

/-- Encoding of `UserProfilePhotos`. -/
def encodeUserProfilePhotos (up : UserProfilePhotos) : Json :=
  Json.obj (encodeUserProfilePhotosFields up)

/-- Decoding of `UserProfilePhotos` from its wire form. -/
def decodeUserProfilePhotos (j : Json) : Option UserProfilePhotos :=
  match j with
  | Json.obj fields => do
    let cnt ← decodeIntField fields "total_count"
    let ph ← decodeSliceField fields "photos" decodePhotoRow
    pure (UserProfilePhotos.mk cnt ph)
  | _ => none

/-- Wire fields of `Update` per its tags in `types.go` (`update_id`,
`message`, `callback_query`, `inline_query`; the three pointer fields
encode nil as null). -/
def encodeUpdateFields (u : Update) : List (String × Json) :=
  [("update_id", Json.num u.ID),
   ("message", encodePtrWith encodeMessage u.Payload),
   ("callback_query", encodePtrWith encodeCallback u.Callback),
   ("inline_query", encodePtrWith encodeQuery u.Query)]

/-- Encoding of `Update`. -/
def encodeUpdate (u : Update) : Json := Json.obj (encodeUpdateFields u)

/-- Decoding of `Update` from its wire form. -/
def decodeUpdate (j : Json) : Option Update :=
  match j with
  | Json.obj fields => do
    let id ← decodeIntField fields "update_id"
    let pl ← decodePtrField fields "message" decodeMessage
    let cb ← decodePtrField fields "callback_query" decodeCallback
    let q ← decodePtrField fields "inline_query" decodeQuery
    pure (Update.mk id pl cb q)
  | _ => none

/-- Element-wise decoding inverts element-wise encoding. -/
theorem decodeListWith_map (dec : Json → Option α) (enc : α → Json)
    (h : ∀ x, dec (enc x) = some x) (xs : List α) :
    decodeListWith dec (xs.map enc) = some xs := by
  induction xs with
  | nil => rfl
  | cons x rest ih => simp [List.map, decodeListWith, h x, ih]

/-- `User` round-trips through its wire fields. -/
theorem user_fields_roundtrip (u : User) :
    decodeUser (Json.obj (encodeUserFields u)) = some u := rfl

/-- `Message` round-trips through its wire fields. -/
theorem message_fields_roundtrip (m : Message) :
    decodeMessage (Json.obj (encodeMessageFields m)) = some m := rfl

/-- `Query` round-trips through its wire fields. -/
theorem query_fields_roundtrip (q : Query) :
    decodeQuery (Json.obj (encodeQueryFields q)) = some q := rfl

/-- `File` round-trips through its wire fields. -/
theorem file_fields_roundtrip (f : File) :
    decodeFile (Json.obj (encodeFileFields f)) = some f := rfl

/-- `Photo` round-trips through its wire fields, whether or not the
`omitempty` caption is present. -/
theorem photo_fields_roundtrip (p : Photo) :
    decodePhoto (Json.obj (encodePhotoFields p)) = some p := by
  obtain ⟨⟨fid, fsz⟩, w, h, cap⟩ := p
  by_cases hc : cap = "" <;>
    simp [encodePhotoFields, encodeFileFields, decodePhoto, jsonLookup,
      decodeStrField, decodeIntField, hc]

/-- `Audio` round-trips through its wire fields. -/
theorem audio_fields_roundtrip (a : Audio) :
    decodeAudio (Json.obj (encodeAudioFields a)) = some a := by
  obtain ⟨⟨fid, fsz⟩, dur, title, perf, mime, cap⟩ := a
  by_cases hc : cap = "" <;>
    simp [encodeAudioFields, encodeFileFields, decodeAudio, jsonLookup,
      decodeStrField, decodeIntField, hc]

/-- `Voice` round-trips through its wire fields. -/
theorem voice_fields_roundtrip (v : Voice) :
    decodeVoice (Json.obj (encodeVoiceFields v)) = some v := by
  obtain ⟨⟨fid, fsz⟩, dur, mime, cap⟩ := v
  by_cases hc : cap = "" <;>
    simp [encodeVoiceFields, encodeFileFields, decodeVoice, jsonLookup,
      decodeStrField, decodeIntField, hc]

/-- `Document` round-trips through its wire fields, including the nested
photo preview. -/
theorem document_fields_roundtrip (d : Document) :
    decodeDocument (Json.obj (encodeDocumentFields d)) = some d := by
  obtain ⟨⟨fid, fsz⟩, thumb, fn, mime, cap⟩ := d
  by_cases hc : cap = "" <;>
    simp [encodeDocumentFields, encodeFileFields, encodePhoto, decodeDocument,
      decodeNestedField, jsonLookup, decodeStrField, decodeIntField,
      photo_fields_roundtrip, hc]

/-- `Sticker` round-trips through its wire fields. -/
theorem sticker_fields_roundtrip (s : Sticker) :
    decodeSticker (Json.obj (encodeStickerFields s)) = some s := by
  obtain ⟨⟨fid, fsz⟩, w, h, thumb, emoji⟩ := s
  simp [encodeStickerFields, encodeFileFields, encodePhoto, decodeSticker,
    decodeNestedField, jsonLookup, decodeStrField, decodeIntField,
    photo_fields_roundtrip]

/-- `Video` round-trips through its wire fields exactly when the embedded
audio caption is empty (it is shadowed by the video's own caption tag and
never transported). -/
theorem video_fields_roundtrip (v : Video) (hac : v.Audio.Caption = "") :
    decodeVideo (Json.obj (encodeVideoFields v)) = some v := by
  obtain ⟨⟨⟨fid, fsz⟩, dur, title, perf, mime, acap⟩, w, h, cap, thumb⟩ := v
  simp only at hac
  subst hac
  by_cases hc : cap = "" <;>
    simp [encodeVideoFields, encodeFileFields, encodePhoto, decodeVideo,
      decodeNestedField, jsonLookup, decodeStrField, decodeIntField,
      photo_fields_roundtrip, hc]

/-- `VideoNote` round-trips through its wire fields. -/
theorem videoNote_fields_roundtrip (vn : VideoNote) :
    decodeVideoNote (Json.obj (encodeVideoNoteFields vn)) = some vn := by
  obtain ⟨⟨fid, fsz⟩, dur, thumb⟩ := vn
  simp [encodeVideoNoteFields, encodeFileFields, encodePhoto, decodeVideoNote,
    decodeNestedField, jsonLookup, decodeStrField, decodeIntField,
    photo_fields_roundtrip]

/-- `Contact` round-trips through its wire fields. -/
theorem contact_fields_roundtrip (c : Contact) :
    decodeContact (Json.obj (encodeContactFields c)) = some c := rfl

/-- `Location` decodes back from its wire fields. -/
theorem location_fields_roundtrip (l : Location) :
    decodeLocation (Json.obj (encodeLocationFields l)) = some l := rfl

/-- A finite `Location` encodes successfully and round-trips. -/
theorem location_roundtrip_aux (l : Location)
    (h1 : l.Lat.isFinite = true) (h2 : l.Lng.isFinite = true) :
    (encodeLocation l).bind decodeLocation = some l := by
  simp [encodeLocation, h1, h2, location_fields_roundtrip l]

/-- A `Venue` with a finite location encodes successfully and round-trips. -/
theorem venue_roundtrip_aux (v : Venue)
    (h1 : v.Location.Lat.isFinite = true) (h2 : v.Location.Lng.isFinite = true) :
    (encodeVenue v).bind decodeVenue = some v := by
  obtain ⟨loc, title, addr, fsq⟩ := v
  simp only at h1 h2
  by_cases hf : fsq = "" <;>
    simp [encodeVenue, encodeLocation, h1, h2, decodeVenue, decodeNestedField,
      jsonLookup, decodeStrField, location_fields_roundtrip, hf]

/-- `KeyboardButton` round-trips through its wire fields for every setting
of the two `omitempty` request flags. -/
theorem keyboardButton_fields_roundtrip (kb : KeyboardButton) :
    decodeKeyboardButton (Json.obj (encodeKeyboardButtonFields kb)) = some kb := by
  obtain ⟨text, contact, location⟩ := kb
  cases contact <;> cases location <;>
    simp [encodeKeyboardButtonFields, decodeKeyboardButton, jsonLookup,
      decodeStrField, decodeBoolField]

/-- `InlineButton` round-trips through its wire form (the helper behind
the row and markup lemmas). -/
theorem inlineButton_roundtrip_aux (b : InlineButton) :
    decodeInlineButton (encodeInlineButton b) = some b := by
  obtain ⟨t, url, data, iq⟩ := b
  by_cases h1 : url = "" <;> by_cases h2 : data = "" <;>
    by_cases h3 : iq = "" <;> subst_vars <;>
    simp [encodeInlineButton, decodeInlineButton, jsonLookup, decodeStrField, *]

/-- One row of inline buttons round-trips. -/
theorem buttonRow_roundtrip (row : List InlineButton) :
    decodeButtonRow (Json.arr (row.map encodeInlineButton)) = some row := by
  show decodeListWith decodeInlineButton (row.map encodeInlineButton) = some row
  exact decodeListWith_map _ _ inlineButton_roundtrip_aux row

/-- A list of rows of inline buttons round-trips element-wise. -/
theorem buttonRows_roundtrip (rows : List (List InlineButton)) :
    decodeListWith decodeButtonRow
      (rows.map (fun row => Json.arr (row.map encodeInlineButton))) = some rows := by
  induction rows with
  | nil => rfl
  | cons r rest ih => simp [decodeListWith, buttonRow_roundtrip, ih]

/-- `InlineKeyboardMarkup` round-trips through its wire fields, with the
empty rows slice omitted and decoding back to the zero value. -/
theorem inlineKeyboardMarkup_fields_roundtrip (km : InlineKeyboardMarkup) :
    decodeInlineKeyboardMarkup (Json.obj (encodeInlineKeyboardMarkupFields km)) = some km := by
  obtain ⟨rows⟩ := km
  by_cases hr : rows.isEmpty
  · have hnil : rows = [] := by
      cases rows with
      | nil => rfl
      | cons r rest => simp [List.isEmpty] at hr
    subst hnil
    rfl
  · simp [encodeInlineKeyboardMarkupFields, hr, decodeInlineKeyboardMarkup,
      decodeSliceField, jsonLookup, buttonRows_roundtrip]

/-- `Callback` round-trips through its wire fields for every setting of the
two pointer fields. -/
theorem callback_fields_roundtrip (cb : Callback) :
    decodeCallback (Json.obj (encodeCallbackFields cb)) = some cb := by
  obtain ⟨id, sender, msg, mid, data⟩ := cb
  cases sender <;> cases msg <;>
    simp [encodeCallbackFields, encodePtrWith, encodeUser, encodeMessage,
      decodeCallback, decodePtrField, jsonLookup, decodeStrField,
      user_fields_roundtrip, message_fields_roundtrip]

/-- `CallbackResponse` round-trips through its wire fields for every
setting of the three `omitempty` fields. -/
theorem callbackResponse_fields_roundtrip (cr : CallbackResponse) :
    decodeCallbackResponse (Json.obj (encodeCallbackResponseFields cr)) = some cr := by
  obtain ⟨cid, text, alert, url⟩ := cr
  by_cases h1 : text = "" <;> cases alert <;> by_cases h2 : url = "" <;>
    simp [encodeCallbackResponseFields, decodeCallbackResponse, jsonLookup,
      decodeStrField, decodeBoolField, h1, h2]

/-- `ChatMember` round-trips through its wire fields. -/
theorem chatMember_fields_roundtrip (cm : ChatMember) :
    decodeChatMember (Json.obj (encodeChatMemberFields cm)) = some cm := by
  obtain ⟨user, status⟩ := cm
  simp [encodeChatMemberFields, encodeUser, decodeChatMember, decodeNestedField,
    jsonLookup, decodeStrField, user_fields_roundtrip]

/-- One size-variant group of photos round-trips. -/
theorem photoRow_roundtrip (row : List Photo) :
    decodePhotoRow (Json.arr (row.map encodePhoto)) = some row := by
  show decodeListWith decodePhoto (row.map encodePhoto) = some row
  exact decodeListWith_map _ _ (fun p => photo_fields_roundtrip p) row

/-- A list of photo groups round-trips element-wise. -/
theorem photoRows_roundtrip (rows : List (List Photo)) :
    decodeListWith decodePhotoRow
      (rows.map (fun row => Json.arr (row.map encodePhoto))) = some rows := by
  induction rows with
  | nil => rfl
  | cons r rest ih => simp [decodeListWith, photoRow_roundtrip, ih]

/-- `UserProfilePhotos` round-trips through its wire fields. -/
theorem userProfilePhotos_fields_roundtrip (up : UserProfilePhotos) :
    decodeUserProfilePhotos (Json.obj (encodeUserProfilePhotosFields up)) = some up := by
  obtain ⟨cnt, photos⟩ := up
  simp [encodeUserProfilePhotosFields, decodeUserProfilePhotos, decodeSliceField,
    jsonLookup, decodeIntField, photoRows_roundtrip]

/-- `Update` round-trips through its wire fields for every setting of the
three pointer fields. -/
theorem update_fields_roundtrip (u : Update) :
    decodeUpdate (Json.obj (encodeUpdateFields u)) = some u := by
  obtain ⟨id, pl, cb, q⟩ := u
  cases pl <;> cases cb <;> cases q <;>
    simp [encodeUpdateFields, encodePtrWith, encodeMessage, encodeCallback,
      encodeQuery, decodeUpdate, decodePtrField, jsonLookup, decodeIntField,
      message_fields_roundtrip, callback_fields_roundtrip, query_fields_roundtrip]

/-- Claim C1: for every Chat whose kind tag equals "channel", `Destination`
returns `"@"` concatenated with the chat's username; in particular, for a
channel Chat with an empty username it returns exactly the string `"@"`,
with no error signalled (the operation is total by type). -/
theorem chat_channel_destination (c : Chat) (h : c.type = "channel") :
    c.Destination = "@" ++ c.Username ∧ (c.Username = "" → c.Destination = "@") := by
  constructor
  · unfold Chat.Destination
    simp [h]
  · intro hu
    unfold Chat.Destination
    simp [h, hu]

/-- Witness for C1 at the spec's example inputs: a channel chat with
username "news" resolves to "@news", and with an empty username to "@". -/
theorem chat_channel_destination_witness :
    ({ ID := 555, type := "channel", Title := "", FirstName := "",
       LastName := "", Username := "news" } : Chat).Destination = "@" ++ "news"
    ∧ ({ ID := 555, type := "channel", Title := "", FirstName := "",
         LastName := "", Username := "" } : Chat).Destination = "@" :=
  ⟨(chat_channel_destination _ rfl).1, (chat_channel_destination _ rfl).2 rfl⟩

/-- Claim C2: for every Chat of a non-channel documented kind (private,
group, supergroup), `Destination` returns the decimal string of the numeric
identifier, regardless of the `Username` field (the statement quantifies
over all field values). -/
theorem chat_nonchannel_destination (c : Chat)
    (h : c.type = "private" ∨ c.type = "group" ∨ c.type = "supergroup") :
    c.Destination = toString c.ID := by
  have hne : c.type ≠ "channel" := by
    rcases h with h | h | h <;> simp [h]
  unfold Chat.Destination
  show (if c.type ≠ "channel" then strconv.FormatInt c.ID else "@" ++ c.Username)
    = toString c.ID
  rw [if_pos hne, formatInt_eq_toString]

/-- Witness for C2: a group chat with identifier 42 and a nonredundant
username resolves to the decimal string "42". -/
theorem chat_nonchannel_destination_witness :
    ({ ID := 42, type := "group", Title := "t", FirstName := "",
       LastName := "", Username := "somename" } : Chat).Destination
      = toString (42 : Int) :=
  chat_nonchannel_destination _ (Or.inr (Or.inl rfl))

/-- Claim C3: for every User, `Destination` returns the decimal string of
its numeric identifier (`toString` on `Int` is decimal with a leading minus
sign for negatives); it is total and has no failure mode. -/
theorem user_destination_decimal (u : User) : u.Destination = toString u.ID :=
  itoa_eq_toString u.ID

/-- Claim C4: for every Chat, `IsGroupChat` is false iff the kind tag is
"private", and is true for each of the other documented kinds. -/
theorem isGroupChat_false_iff_private (c : Chat) :
    (c.IsGroupChat = false ↔ c.type = "private")
    ∧ (c.type = "group" ∨ c.type = "supergroup" ∨ c.type = "channel" →
       c.IsGroupChat = true) := by
  constructor
  · unfold Chat.IsGroupChat
    simp
  · intro h
    unfold Chat.IsGroupChat
    rcases h with h | h | h <;> simp [h]

/-- Witness for C4: a supergroup chat is a group chat. -/
theorem isGroupChat_false_iff_private_witness :
    ({ ID := 1, type := "supergroup", Title := "", FirstName := "",
       LastName := "", Username := "" } : Chat).IsGroupChat = true :=
  (isGroupChat_false_iff_private _).2 (Or.inr (Or.inl rfl))

/-- Claim C9: for every Chat whose kind tag is any string other than
exactly "channel" — including strings outside the documented set —
`Destination` returns the decimal string of the identifier; and
`IsGroupChat` is true for every kind string other than exactly "private". -/
theorem chat_out_of_set_kinds (c : Chat) :
    (c.type ≠ "channel" → c.Destination = toString c.ID)
    ∧ (c.type ≠ "private" → c.IsGroupChat = true) := by
  constructor
  · intro h
    unfold Chat.Destination
    show (if c.type ≠ "channel" then strconv.FormatInt c.ID else "@" ++ c.Username)
      = toString c.ID
    rw [if_pos h, formatInt_eq_toString]
  · intro h
    unfold Chat.IsGroupChat
    simp [h]

/-- Witness for C9 at the out-of-set kind tag `""`: the destination is the
decimal identifier and `IsGroupChat` is true. -/
theorem chat_out_of_set_kinds_witness :
    ({ ID := 7, type := "", Title := "", FirstName := "", LastName := "",
       Username := "u" } : Chat).Destination = toString (7 : Int)
    ∧ ({ ID := 7, type := "", Title := "", FirstName := "", LastName := "",
         Username := "u" } : Chat).IsGroupChat = true :=
  ⟨(chat_out_of_set_kinds _).1 (by decide), (chat_out_of_set_kinds _).2 (by decide)⟩

/-- Claim C10: the destination and group-chat operations are pure: in the
state-passing embedding each call returns the receiver unchanged in every
field, a second call on the resulting state returns the same result
(determinism), and the call's result is the pure function's value. -/
theorem destination_calls_pure (u : User) (c : Chat) :
    ((u.DestinationCall).2 = u ∧ (c.DestinationCall).2 = c
      ∧ (c.IsGroupChatCall).2 = c)
    ∧ ((u.DestinationCall.2).DestinationCall.1 = u.DestinationCall.1
      ∧ (c.DestinationCall.2).DestinationCall.1 = c.DestinationCall.1
      ∧ (c.IsGroupChatCall.2).IsGroupChatCall.1 = c.IsGroupChatCall.1)
    ∧ (u.DestinationCall.1 = u.Destination
      ∧ c.DestinationCall.1 = c.Destination
      ∧ c.IsGroupChatCall.1 = c.IsGroupChat) :=
  ⟨⟨rfl, rfl, rfl⟩, ⟨rfl, rfl, rfl⟩, ⟨rfl, rfl, rfl⟩⟩

/-- Claim C5: the CallbackResponse builder sets `CallbackID` from the
Callback's identifier for every choice of caller-supplied text, alert flag
and URL; the caller-supplied arguments populate only the remaining fields,
so `CallbackID` is not settable by the caller. -/
theorem callbackResponse_builder_id (c : Callback) (text : String)
    (alert : Bool) (url : String) :
    (buildCallbackResponse c text alert url).CallbackID = c.ID
    ∧ (buildCallbackResponse c text alert url).Text = text
    ∧ (buildCallbackResponse c text alert url).ShowAlert = alert
    ∧ (buildCallbackResponse c text alert url).URL = url :=
  ⟨rfl, rfl, rfl, rfl⟩

/-- Claim C6: dispatch follows the precedence Callback, then Query, then
Payload: an Update with only Payload populated dispatches as a plain
message, and one with Callback populated dispatches as a callback even
when Payload is populated too. -/
theorem update_dispatch_precedence :
    (∀ (u : Update), u.Callback = none → u.Query = none →
      u.Payload.isSome → dispatch u = DispatchKind.message)
    ∧ (∀ (u : Update), u.Callback.isSome → dispatch u = DispatchKind.callback) := by
  constructor
  · intro u hc hq hp
    cases hpl : u.Payload with
    | none => rw [hpl] at hp; simp at hp
    | some m => simp [dispatch, hc, hq, hpl]
  · intro u hc
    cases hcb : u.Callback with
    | none => rw [hcb] at hc; simp at hc
    | some cb => simp [dispatch, hcb]

/-- Witness for C6: a message-only update dispatches as a message, and an
update carrying both a payload and a callback dispatches as a callback. -/
theorem update_dispatch_precedence_witness :
    dispatch (Update.mk 42 (some (Message.mk 1)) none none) = DispatchKind.message
    ∧ dispatch (Update.mk 43 (some (Message.mk 1))
        (some (Callback.mk "abc123" none none "" "")) none) = DispatchKind.callback :=
  ⟨update_dispatch_precedence.1 _ rfl rfl rfl,
   update_dispatch_precedence.2 _ rfl⟩

/-- Claim C7 counterexample: the round trip is lossy on `Video`. Both
`Video.Caption` (depth 0) and the embedded `Audio.Caption` (depth 1) carry
the wire name `caption`, and Go's documented conflict rule marshals and
unmarshals only the least-nested field, so a populated embedded audio
caption ("inner" below) encodes without it and decodes back to the zero
value. Also, encoding a `Location` holding a non-finite float32 (NaN bits
0x7FC00000) fails with an error instead of producing a decodable wire
value. -/
theorem entity_roundtrip_counterexample :
    decodeVideo (encodeVideo (Video.mk
        (Audio.mk (File.mk "fid" 3) 7 "song" "artist" "video/mp4" "inner")
        320 240 "outer" (Photo.mk (File.mk "th" 1) 90 90 "")))
      = some (Video.mk
        (Audio.mk (File.mk "fid" 3) 7 "song" "artist" "video/mp4" "")
        320 240 "outer" (Photo.mk (File.mk "th" 1) 90 90 ""))
    ∧ decodeVideo (encodeVideo (Video.mk
        (Audio.mk (File.mk "fid" 3) 7 "song" "artist" "video/mp4" "inner")
        320 240 "outer" (Photo.mk (File.mk "th" 1) 90 90 "")))
      ≠ some (Video.mk
        (Audio.mk (File.mk "fid" 3) 7 "song" "artist" "video/mp4" "inner")
        320 240 "outer" (Photo.mk (File.mk "th" 1) 90 90 ""))
    ∧ encodeLocation (Location.mk (GoFloat32.mk 2143289344) (GoFloat32.mk 0)) = none :=
  ⟨rfl, by decide, rfl⟩

/-- Claim C7 (amended): encoding then decoding yields a value equal to the
original in all populated fields for every entity of the data model, with
omitted-when-empty fields decoding back to their zero value, except exactly
where the code loses information: a `Video` round-trips only when its
embedded audio caption is empty (that field is shadowed by the video's own
`caption` tag and dropped, see the counterexample), and `Location`/`Venue`
encode only when their float32 coordinates are finite (Go's `Marshal`
errors on NaN and infinities). -/
theorem entity_roundtrip_amended :
    (∀ v : Video, v.Audio.Caption = "" → decodeVideo (encodeVideo v) = some v)
    ∧ (∀ l : Location, l.Lat.isFinite = true → l.Lng.isFinite = true →
        (encodeLocation l).bind decodeLocation = some l)
    ∧ (∀ v : Venue, v.Location.Lat.isFinite = true → v.Location.Lng.isFinite = true →
        (encodeVenue v).bind decodeVenue = some v)
    ∧ (∀ u : User, decodeUser (encodeUser u) = some u)
    ∧ (∀ c : Chat, decodeChat (encodeChat c) = some c)
    ∧ (∀ f : File, decodeFile (encodeFile f) = some f)
    ∧ (∀ p : Photo, decodePhoto (encodePhoto p) = some p)
    ∧ (∀ a : Audio, decodeAudio (encodeAudio a) = some a)
    ∧ (∀ v : Voice, decodeVoice (encodeVoice v) = some v)
    ∧ (∀ d : Document, decodeDocument (encodeDocument d) = some d)
    ∧ (∀ s : Sticker, decodeSticker (encodeSticker s) = some s)
    ∧ (∀ vn : VideoNote, decodeVideoNote (encodeVideoNote vn) = some vn)
    ∧ (∀ ct : Contact, decodeContact (encodeContact ct) = some ct)
    ∧ (∀ kb : KeyboardButton, decodeKeyboardButton (encodeKeyboardButton kb) = some kb)
    ∧ (∀ b : InlineButton, decodeInlineButton (encodeInlineButton b) = some b)
    ∧ (∀ km : InlineKeyboardMarkup,
        decodeInlineKeyboardMarkup (encodeInlineKeyboardMarkup km) = some km)
    ∧ (∀ m : Message, decodeMessage (encodeMessage m) = some m)
    ∧ (∀ q : Query, decodeQuery (encodeQuery q) = some q)
    ∧ (∀ cb : Callback, decodeCallback (encodeCallback cb) = some cb)
    ∧ (∀ cr : CallbackResponse,
        decodeCallbackResponse (encodeCallbackResponse cr) = some cr)
    ∧ (∀ cm : ChatMember, decodeChatMember (encodeChatMember cm) = some cm)
    ∧ (∀ up : UserProfilePhotos,
        decodeUserProfilePhotos (encodeUserProfilePhotos up) = some up)
    ∧ (∀ u : Update, decodeUpdate (encodeUpdate u) = some u) :=
  ⟨fun v h => video_fields_roundtrip v h,
   fun l h1 h2 => location_roundtrip_aux l h1 h2,
   fun v h1 h2 => venue_roundtrip_aux v h1 h2,
   fun u => user_fields_roundtrip u,
   fun _ => rfl,
   fun f => file_fields_roundtrip f,
   fun p => photo_fields_roundtrip p,
   fun a => audio_fields_roundtrip a,
   fun v => voice_fields_roundtrip v,
   fun d => document_fields_roundtrip d,
   fun s => sticker_fields_roundtrip s,
   fun vn => videoNote_fields_roundtrip vn,
   fun ct => contact_fields_roundtrip ct,
   fun kb => keyboardButton_fields_roundtrip kb,
   fun b => inlineButton_roundtrip_aux b,
   fun km => inlineKeyboardMarkup_fields_roundtrip km,
   fun m => message_fields_roundtrip m,
   fun q => query_fields_roundtrip q,
   fun cb => callback_fields_roundtrip cb,
   fun cr => callbackResponse_fields_roundtrip cr,
   fun cm => chatMember_fields_roundtrip cm,
   fun up => userProfilePhotos_fields_roundtrip up,
   fun u => update_fields_roundtrip u⟩

/-- Witness for the amended C7 at the hypothesis-carrying conjuncts: a
Video with an empty embedded audio caption, a Location with finite
coordinates (bits of 1.0f), and a Venue around that location all
round-trip. -/
theorem entity_roundtrip_amended_witness :
    decodeVideo (encodeVideo (Video.mk
        (Audio.mk (File.mk "fid" 3) 7 "song" "artist" "video/mp4" "")
        320 240 "outer" (Photo.mk (File.mk "th" 1) 90 90 "")))
      = some (Video.mk
        (Audio.mk (File.mk "fid" 3) 7 "song" "artist" "video/mp4" "")
        320 240 "outer" (Photo.mk (File.mk "th" 1) 90 90 ""))
    ∧ (encodeLocation (Location.mk (GoFloat32.mk 1065353216) (GoFloat32.mk 0))).bind
        decodeLocation
      = some (Location.mk (GoFloat32.mk 1065353216) (GoFloat32.mk 0))
    ∧ (encodeVenue (Venue.mk (Location.mk (GoFloat32.mk 1065353216) (GoFloat32.mk 0))
        "HQ" "main street 1" "")).bind decodeVenue
      = some (Venue.mk (Location.mk (GoFloat32.mk 1065353216) (GoFloat32.mk 0))
        "HQ" "main street 1" "") :=
  ⟨entity_roundtrip_amended.1 _ rfl,
   entity_roundtrip_amended.2.1 _ rfl rfl,
   entity_roundtrip_amended.2.2.1 _ rfl rfl⟩

/-- Claim C8: an Update whose three payload fields are all empty is a valid
Update value: it is constructible for every identifier, inspecting its
fields succeeds, and dispatch is defined on it (returning the
uninteresting outcome) with no error. -/
theorem empty_update_valid (id : Int) :
    ({ ID := id, Payload := none, Callback := none, Query := none } : Update).Payload = none
    ∧ ({ ID := id, Payload := none, Callback := none, Query := none } : Update).Callback = none
    ∧ ({ ID := id, Payload := none, Callback := none, Query := none } : Update).Query = none
    ∧ dispatch { ID := id, Payload := none, Callback := none, Query := none }
        = DispatchKind.nothing :=
  ⟨rfl, rfl, rfl, rfl⟩
